import Mathlib

/-!
Verification of the `ezcl` single-header OpenCL wrapper (`src/ezcl.hpp`).

The development shallowly embeds the host-side logic of the header:
device-session construction and teardown, buffer construction, the access
and shape checks guarding every elementwise dispatch, the generated kernel
source and its device-side semantics, and the `read` overloads.  OpenCL
handles are modelled as natural numbers, device memory as Lean lists, and
the opaque platform calls (`clCreateContext`, `clBuildProgram`, ...) as
injected results plus an event trace recording which API calls a dispatch
performs.
-/

namespace ezcl

/-- Flag bits from `CL/cl.h` (`CL_MEM_READ_WRITE` is bit 0, `CL_MEM_WRITE_ONLY`
bit 1, `CL_MEM_READ_ONLY` bit 2, `CL_MEM_COPY_HOST_PTR` bit 5). -/
def CL_MEM_READ_WRITE : Nat := 1

def CL_MEM_WRITE_ONLY : Nat := 2

def CL_MEM_READ_ONLY : Nat := 4

def CL_MEM_COPY_HOST_PTR : Nat := 32

/-- Source `enum AccessType : int` from `ezcl.hpp` (lines 32-36). -/
inductive AccessType where
  | READ_WRITE
  | READ_ONLY
  | WRITE_ONLY
deriving DecidableEq, Repr

/-- The numeric value of each `AccessType` enumerator exactly as written in the
source: each is an OpenCL memory flag OR-ed with `CL_MEM_COPY_HOST_PTR`. -/
def AccessType.val : AccessType → Nat
  | .READ_WRITE => CL_MEM_READ_WRITE ||| CL_MEM_COPY_HOST_PTR
  | .READ_ONLY => CL_MEM_READ_ONLY ||| CL_MEM_COPY_HOST_PTR
  | .WRITE_ONLY => CL_MEM_WRITE_ONLY ||| CL_MEM_COPY_HOST_PTR

/-- Source `enum AccessMethod : bool` from `ezcl.hpp` (lines 98-101). -/
inductive AccessMethod where
  | WRITE
  | READ
deriving DecidableEq

/-- Source `Array<T>` from `ezcl.hpp`: `data` is the content of the owned device
buffer (`cl_mem data`), `access` the mode fixed at construction.  The C++
`_size` field always equals the buffer's element count, so size is modelled
as `data.length`. -/
structure ClArray (α : Type) where
  data : List α
  access : AccessType

/-- Source `Array<T>::getSize()` / `Array<T>::size()`. -/
def ClArray.size {α : Type} (a : ClArray α) : Nat := a.data.length

/-- Source `checkAccess` from `ezcl.hpp` (lines 103-109): `READ_WRITE` permits
everything; otherwise a `WRITE` use requires `WRITE_ONLY` and a `READ` use
requires `READ_ONLY`. -/
def checkAccess {α : Type} (a : ClArray α) (am : AccessMethod) : Bool :=
  let acc := a.access
  if acc = AccessType.READ_WRITE then true
  else match am with
    | AccessMethod.WRITE => acc = AccessType.WRITE_ONLY
    | AccessMethod.READ => acc = AccessType.READ_ONLY

/-- The kernel source text assembled by `makeKernelFunction` (lines 13-24):
one entry point named `name` over three `typeName` buffers and an explicit
`ulong` element count `s`. -/
def kernelFunctionSource (name typeName : String) (opOperator : Char) : String :=
  "__kernel void " ++ name ++ "(__global const " ++ typeName ++
    "* a, __global const " ++ typeName ++ "* b, __global " ++ typeName ++
    "* c, const ulong s) \x7b" ++
  "\n    int gid = get_global_id(0);" ++
  "\n    if (gid < s) c[gid] = a[gid] " ++ String.singleton opOperator ++ " b[gid];" ++
  "\n\x7d"

/-- A `const char*` obtained from `std::string::c_str()`: it points into the
buffer of the string object identified by `owner`. -/
structure CStrPtr where
  owner : Nat
deriving DecidableEq, Repr

/-- Source `makeKernelFunction` (lines 13-24), embedded with explicit C++ object
lifetimes.  Object `0` is the local `std::ostringstream function`; object `1`
is the temporary `std::string` produced by `function.str()` in the return
expression, whose `c_str()` result is returned.  Per C++ lifetime rules the
temporary is destroyed at the end of the return statement's full-expression
and the stream at scope exit, both before the caller receives the pointer.
Returns the pointer and the list of string objects (id, contents) still
alive after the function returns. -/
def makeKernelFunction (name typeName : String) (opOperator : Char) :
    CStrPtr × List (Nat × String) :=
  let src := kernelFunctionSource name typeName opOperator
  -- `std::ostringstream function;` then the chained insertions: object 0 holds `src`
  let h0 : List (Nat × String) := [(0, src)]
  -- `function.str()` materialises a temporary `std::string` (object 1) with value `src`
  let h1 : List (Nat × String) := (1, src) :: h0
  -- `.c_str()` yields a pointer into object 1's buffer
  let ptr : CStrPtr := ⟨1⟩
  -- end of the return full-expression: the temporary `std::string` is destroyed
  let h2 := h1.filter (fun o => o.1 != 1)
  -- function scope exits: `function` is destroyed
  let h3 := h2.filter (fun o => o.1 != 0)
  (ptr, h3)

/-- The message of the `std::runtime_error` thrown by `checkErr` (lines 26-30)
when a platform call returns a nonzero status. -/
def checkErrMsg (name : String) (err : Int) : String :=
  "Error: " ++ name ++ " (" ++ toString err ++ ")" ++ "\n"

/-- The step `err = clBuildProgram(...); checkErr(err, "clBuildProgram");` as it appears
in every dispatch overload.  `buildErr` is the status the platform returns and
`buildLog` the diagnostic build log the platform makes available through
`clGetProgramBuildInfo`; the source never queries that log, so the argument is
unused and the raised message is built by `checkErrMsg` from the call name and
the numeric status alone. -/
def clBuildProgramChecked (buildErr : Int) (buildLog : String) : Except String Unit :=
  if buildErr = 0 then Except.ok ()
  else Except.error (checkErrMsg "clBuildProgram" buildErr)

/-- The OpenCL C conversion `int gid = get_global_id(0);` of a work-item id to
a 32-bit signed `int`, modelled as two's-complement wraparound. -/
def int32ofNat (n : Nat) : Int :=
  ((n : Int) + 2147483648) % 4294967296 - 2147483648

/-- Conversion of a (possibly negative) `int` value to the 64-bit unsigned
`ulong` it is promoted to by the usual arithmetic conversions in `gid < s`. -/
def ulongOfInt (i : Int) : Nat :=
  (i % 18446744073709551616).toNat

/-- The kernel's guard `gid < s`: `gid` (an `int`) is converted to `ulong`
(the type of `s`) and the comparison is unsigned. -/
def gidGuard (gid s : Nat) : Bool :=
  decide (ulongOfInt (int32ofNat gid) < s)

/-- One work item of the generated kernel
`int gid = get_global_id(0); if (gid < s) c[gid] = a[gid] <op> b[gid];`
executed at global id `gid`: the id is narrowed to a 32-bit `int`, the guard
compares it against `s` as `ulong`, and on success index `gid` (the `int`
value) of `c` is overwritten.  A negative `gid` passing the guard would be an
out-of-bounds access in the source (undefined behavior); it requires
`s > 2^64 - 2^31` and is modelled here by `Int.toNat` clamping to index 0;
no theorem below exercises that regime. -/
def workItem {α : Type} [Inhabited α] (op : α → α → α) (a b : List α) (s : Nat)
    (c : List α) (gid : Nat) : List α :=
  let g : Int := int32ofNat gid
  if gidGuard gid s then
    c.set g.toNat (op (a.getD g.toNat default) (b.getD g.toNat default))
  else c

/-- The call `clEnqueueNDRangeKernel` of the generated kernel over a one-dimensional
grid of `G` work items with element-count argument `s`: every work item runs
`workItem`.  Work items write disjoint indices (or, after 32-bit wraparound,
the same index with the same value), so the sequential fold is a faithful
model of the parallel execution. -/
def kernelRun {α : Type} [Inhabited α] (op : α → α → α) (a b c : List α)
    (s G : Nat) : List α :=
  (List.range G).foldl (workItem op a b s) c

/-- Whether the work item at global id `gid` writes array index `i`. -/
def itemWritesB (gid s i : Nat) : Bool :=
  gidGuard gid s && ((int32ofNat gid).toNat == i)

/-- Whether any work item of a `G`-sized grid writes array index `i`. -/
def touchedB (G s i : Nat) : Bool :=
  (List.range G).any (fun g => itemWritesB g s i)

/-- The platform API calls a dispatch overload performs after its two
validation checks, in source order. -/
inductive ClEvent where
  | createProgramWithSource (src : String)
  | buildProgram
  | createKernel (name : String)
  | setKernelArg (idx : Nat)
  | enqueueNDRangeKernel (globalWorkSize : Nat)
  | releaseKernel
  | releaseProgram
deriving DecidableEq, BEq, Repr

/-- Whether an event is a `clBuildProgram` call. -/
def isBuildEvent : ClEvent → Bool
  | ClEvent.buildProgram => true
  | _ => false

/-- Number of `clBuildProgram` calls in an event trace. -/
def countBuild (ev : List ClEvent) : Nat :=
  (ev.filter isBuildEvent).length

/-- The common body of every `Device::add` / `sub` / `mul` / `div` overload
(lines 165-1890 of `ezcl.hpp`; e.g. lines 251-292 are the instance
`kernelName = "add_int32"`, `typeName = "int"`, `opOperator = '+'`).  First
the access check, then the size check (each throwing a `std::runtime_error`
before any platform call), then: create and build the program from the
generated source, create the kernel, bind the three buffers and the element
count `s = c.getSize()`, enqueue over `global_work_size = c.getSize()` work
items, and release the kernel and the program.  `op` is the device-side
meaning of `opOperator` at the overload's element type.  Returns the new
content of `c`'s device buffer (or the thrown message) together with the
trace of platform calls performed. -/
def deviceOp {α : Type} [Inhabited α] (kernelName typeName : String)
    (opOperator : Char) (op : α → α → α) (a b c : ClArray α) :
    Except String (List α) × List ClEvent :=
  if !checkAccess a AccessMethod.READ || !checkAccess b AccessMethod.READ
      || !checkAccess c AccessMethod.WRITE then
    (Except.error "invalid Array access permissions", [])
  else if a.size ≠ c.size ∨ b.size ≠ c.size then
    (Except.error "all Arrays must be the same size", [])
  else
    let kernString := kernelFunctionSource kernelName typeName opOperator
    let s := c.size
    let global_work_size := c.size
    (Except.ok (kernelRun op a.data b.data c.data s global_work_size),
      [ClEvent.createProgramWithSource kernString,
       ClEvent.buildProgram,
       ClEvent.createKernel kernelName,
       ClEvent.setKernelArg 0, ClEvent.setKernelArg 1,
       ClEvent.setKernelArg 2, ClEvent.setKernelArg 3,
       ClEvent.enqueueNDRangeKernel global_work_size,
       ClEvent.releaseKernel,
       ClEvent.releaseProgram])

/-- OpenCL `ulong` addition, the device-side meaning of `'+'` at element type
`unsigned long long int`. -/
def uint64add (x y : Nat) : Nat := (x + y) % 18446744073709551616

/-- Two's-complement wraparound to the 32-bit signed range. -/
def wrap32 (i : Int) : Int := (i + 2147483648) % 4294967296 - 2147483648

/-- OpenCL `int` addition, the device-side meaning of `'+'` at element type
`int`. -/
def int32add (x y : Int) : Int := wrap32 (x + y)

/-- Source `Device::add(Array<unsigned long long int>&, ...)` (lines 466-507). -/
def add_uint64 (a b c : ClArray Nat) : Except String (List Nat) × List ClEvent :=
  deviceOp "add_uint64" "unsigned long long int" '+' uint64add a b c

/-- Source `Device::add(Array<int>&, ...)` (lines 251-292). -/
def add_int32 (a b c : ClArray Int) : Except String (List Int) × List ClEvent :=
  deviceOp "add_int32" "int" '+' int32add a b c

/-- The `context` and `queue` members of `class Device`; `platform` and
`device` are plain identifiers with no lifecycle and are omitted.  A handle is
`some h` when it holds a live resource and `none` when null. -/
structure DeviceState where
  context : Option Nat
  queue : Option Nat
deriving DecidableEq, Repr

/-- Source `Device::Device() {}` (line 119): the default constructor has an empty
body and no member initializers, so `context` and `queue` keep whatever
indeterminate values the storage held; the two parameters model those
arbitrary junk values. -/
def deviceDefault (junkContext junkQueue : Option Nat) : DeviceState :=
  { context := junkContext, queue := junkQueue }

/-- Source `Device::Device(cl_platform_id, cl_device_id)` (lines 121-129) run against
an injected platform layer: `ctxRes` is what `clCreateContext` produces
(a handle, or a failure status) and `qRes` what
`clCreateCommandQueueWithProperties` produces.  Each call is followed by
`checkErr`, which throws on failure; the constructor contains no release
calls.  Returns the constructed state (or the thrown message) together with
the handles still live (acquired and not released) when control leaves the
constructor. -/
def deviceCtor (ctxRes qRes : Except Int Nat) :
    Except String DeviceState × List Nat :=
  match ctxRes with
  | Except.error e =>
      (Except.error (checkErrMsg "clCreateContext" e), [])
  | Except.ok ctx =>
      match qRes with
      | Except.error e =>
          (Except.error (checkErrMsg "clCreateCommandQueueWithProperties" e), [ctx])
      | Except.ok q =>
          (Except.ok { context := some ctx, queue := some q }, [ctx, q])

/-- Predicate "fully constructed": both the context and the queue hold live resources. -/
def isFullyConstructed (d : DeviceState) : Bool :=
  d.context.isSome && d.queue.isSome

/-- Predicate "fully torn down": both handles are null. -/
def isTornDown (d : DeviceState) : Bool :=
  d.context.isNone && d.queue.isNone

/-- A device memory object as produced by `clCreateBuffer`: its byte size and
its content, `none` while the memory is uninitialized. -/
structure ClBuffer (α : Type) where
  sizeBytes : Nat
  content : Option (List α)
deriving DecidableEq, Repr

/-- The call `clCreateBuffer(context, flags, size, host_ptr, &err)`: allocates `size`
bytes and copies the host data in exactly when `flags` contains
`CL_MEM_COPY_HOST_PTR`. -/
def clCreateBuffer {α : Type} (flags sizeBytes : Nat) (hostPtr : List α) :
    ClBuffer α :=
  { sizeBytes := sizeBytes,
    content := if flags &&& CL_MEM_COPY_HOST_PTR ≠ 0 then some hostPtr else none }

/-- Source `Array<T>::Array(Device&, AccessType, const std::vector<T>&)`
(lines 1907-1912): calls `clCreateBuffer` with the access mode's enumerator
value as the flags and `sizeof(T) * dat.size()` bytes, and sets
`_size = dat.size()`.  `sizeofT` stands for `sizeof(T)`.  Returns the created
buffer and the stored `_size`. -/
def arrayCtorVec {α : Type} (sizeofT : Nat) (acc : AccessType) (dat : List α) :
    ClBuffer α × Nat :=
  (clCreateBuffer acc.val (sizeofT * dat.length) dat, dat.length)

/-- Source `Array<T>::read(std::vector<T>& v)` (lines 1929-1935): the destination is
discarded and reassigned `std::vector<T>(_size)`, then the buffer's `_size`
elements are read into it; there is no size check and the call cannot fail
with a mismatch.  `v` is the caller's destination before the call. -/
def readVec {α : Type} (arr : ClArray α) (v : List α) : Except String (List α) :=
  Except.ok arr.data

/-- Source `Array<T>::read(std::array<T, S>&)` (lines 1937-1944): throws when the
destination capacity `S` differs from `_size`, otherwise reads the buffer. -/
def readArr {α : Type} (arr : ClArray α) (S : Nat) : Except String (List α) :=
  if S ≠ arr.size then Except.error "read target array size mismatch"
  else Except.ok arr.data

/-- Source `Array<T>::read(T*, const size_t s)` (lines 1946-1952): throws when the
declared length `s` differs from `_size`, otherwise reads the buffer. -/
def readPtr {α : Type} (arr : ClArray α) (s : Nat) : Except String (List α) :=
  if s ≠ arr.size then Except.error "read target array size mismatch"
  else Except.ok arr.data

/-- Element count `2^31 + 1`, one past the largest work-item id that survives
the kernel's `int gid` narrowing unchanged. -/
def c1N : Nat := 2147483649

/-- Input `A` for the large-dispatch counterexample: `2^31 + 1` ones. -/
def c1A : ClArray Nat := { data := List.replicate c1N 1, access := AccessType.READ_ONLY }

/-- Input `B` for the large-dispatch counterexample: `2^31 + 1` ones. -/
def c1B : ClArray Nat := { data := List.replicate c1N 1, access := AccessType.READ_ONLY }

/-- Output `C` for the large-dispatch counterexample: `2^31 + 1` zeros. -/
def c1C : ClArray Nat := { data := List.replicate c1N 0, access := AccessType.WRITE_ONLY }

/-- The output buffer content produced by `add_uint64` on the large arrays. -/
def c1Out : List Nat := ((add_uint64 c1A c1B c1C).1).toOption.getD []

/-- Small concrete input `A` for cache and witness statements. -/
def c2A : ClArray Int := { data := [1, 2], access := AccessType.READ_ONLY }

/-- Small concrete input `B` for cache and witness statements. -/
def c2B : ClArray Int := { data := [3, 4], access := AccessType.READ_ONLY }

/-- Small concrete output `C` for cache and witness statements. -/
def c2C : ClArray Int := { data := [0, 0], access := AccessType.WRITE_ONLY }

/-- A read-only output buffer of the right size, for the permission-check
witness. -/
def c4C : ClArray Int := { data := [0, 0], access := AccessType.READ_ONLY }

/-- A shape-mismatched, read-only output buffer for the check-order
counterexample. -/
def c5C : ClArray Int := { data := [0, 0, 0], access := AccessType.READ_ONLY }

/-- A shape-mismatched but writable output buffer for the shape-check
witness. -/
def c5W : ClArray Int := { data := [0, 0, 0], access := AccessType.WRITE_ONLY }

/-- A sample diagnostic build log as a platform would report it. -/
def buildLogEx : String := "kernel.cl:2:5: error: use of undeclared identifier"

/-- A two-element read-write array for the `read` counterexample. -/
def c7Arr : ClArray Nat := { data := [1, 2], access := AccessType.READ_WRITE }

/-! ## Helper lemmas about the kernel index arithmetic -/

theorem int32ofNat_toNat_lt (g : Nat) : (int32ofNat g).toNat < 2147483648 := by
  unfold int32ofNat
  have h1 := Int.emod_nonneg ((g : Int) + 2147483648)
    (by norm_num : (4294967296 : Int) ≠ 0)
  have h2 := Int.emod_lt_of_pos ((g : Int) + 2147483648)
    (by norm_num : (0 : Int) < 4294967296)
  omega

theorem int32ofNat_of_lt {g : Nat} (h : g < 2147483648) : int32ofNat g = g := by
  unfold int32ofNat
  rw [Int.emod_eq_of_lt (by omega) (by omega)]
  omega

theorem ulongOfInt_ofNat {g : Nat} (h : g < 18446744073709551616) :
    ulongOfInt (g : Int) = g := by
  unfold ulongOfInt
  rw [Int.emod_eq_of_lt (by omega) (by omega)]
  omega

theorem gidGuard_of_lt {g : Nat} (h : g < 2147483648) (s : Nat) :
    gidGuard g s = decide (g < s) := by
  unfold gidGuard
  rw [int32ofNat_of_lt h, ulongOfInt_ofNat (by omega)]

theorem workItem_length {α : Type} [Inhabited α] (op : α → α → α) (a b : List α)
    (s : Nat) (c : List α) (gid : Nat) : (workItem op a b s c gid).length = c.length := by
  unfold workItem
  split
  · exact List.length_set ..
  · rfl

theorem kernelRun_zero {α : Type} [Inhabited α] (op : α → α → α) (a b c : List α)
    (s : Nat) : kernelRun op a b c s 0 = c := rfl

theorem kernelRun_succ {α : Type} [Inhabited α] (op : α → α → α) (a b c : List α)
    (s G : Nat) :
    kernelRun op a b c s (G + 1) = workItem op a b s (kernelRun op a b c s G) G := by
  unfold kernelRun
  rw [List.range_succ, List.foldl_append]
  rfl

theorem kernelRun_length {α : Type} [Inhabited α] (op : α → α → α) (a b c : List α)
    (s G : Nat) : (kernelRun op a b c s G).length = c.length := by
  induction G with
  | zero => rfl
  | succ n ih => rw [kernelRun_succ, workItem_length, ih]

theorem itemWritesB_eq_false_of_ge {i : Nat} (hi : 2147483648 ≤ i) (g s : Nat) :
    itemWritesB g s i = false := by
  unfold itemWritesB
  have hlt := int32ofNat_toNat_lt g
  have hne : ((int32ofNat g).toNat == i) = false := by
    simp only [beq_eq_false_iff_ne, ne_eq]
    omega
  rw [hne, Bool.and_false]

theorem touchedB_eq_false {G s i : Nat}
    (h : ∀ g, g < G → itemWritesB g s i = false) : touchedB G s i = false := by
  unfold touchedB
  simp only [List.any_eq_false]
  intro g hg
  simp [h g (List.mem_range.mp hg)]

theorem touchedB_eq_true {G s i : Nat} (g : Nat) (hg : g < G)
    (h : itemWritesB g s i = true) : touchedB G s i = true := by
  unfold touchedB
  rw [List.any_eq_true]
  exact ⟨g, List.mem_range.mpr hg, h⟩

theorem itemWritesB_self {i s : Nat} (hi : i < 2147483648) (his : i < s) :
    itemWritesB i s i = true := by
  unfold itemWritesB
  rw [gidGuard_of_lt hi, int32ofNat_of_lt hi]
  simp [his]

theorem getElem?_replicate_of_lt {α : Type} {x : α} {n i : Nat} (h : i < n) :
    (List.replicate n x)[i]? = some x := by
  simp [List.getElem?_replicate, h]

theorem getD_replicate_of_lt {α : Type} {x d : α} {n i : Nat} (h : i < n) :
    (List.replicate n x).getD i d = x := by
  simp [List.getD_eq_getElem?_getD, getElem?_replicate_of_lt h]

theorem toOption_getD_ok {ε α : Type} (x d : α) :
    (Except.ok x : Except ε α).toOption.getD d = x := rfl

/-- Which entry of the output buffer each grid of `G` work items produces:
index `i` holds `op a[i] b[i]` when some work item writes it, and its prior
content otherwise.  Every work item that writes index `i` writes this same
value, so the fold's result at `i` is independent of the order of writes. -/
theorem kernelRun_getElem? {α : Type} [Inhabited α] (op : α → α → α)
    (a b c : List α) (s : Nat) {i : Nat} (hi : i < c.length) (G : Nat) :
    (kernelRun op a b c s G)[i]? =
      if touchedB G s i then some (op (a.getD i default) (b.getD i default))
      else (c)[i]? := by
  induction G with
  | zero =>
      simp [kernelRun_zero, touchedB]
  | succ n ih =>
      have htouch : touchedB (n + 1) s i = (touchedB n s i || itemWritesB n s i) := by
        unfold touchedB
        rw [List.range_succ, List.any_append]
        simp
      rw [kernelRun_succ, htouch]
      unfold workItem
      by_cases hg : gidGuard n s = true
      · rw [if_pos hg]
        by_cases hw : (int32ofNat n).toNat = i
        · have hwrites : itemWritesB n s i = true := by
            unfold itemWritesB
            simp [hg, hw]
          have hlen : i < (kernelRun op a b c s n).length := by
            rw [kernelRun_length]; exact hi
          rw [hw, hwrites, Bool.or_true, if_pos rfl]
          simp [List.getElem?_set, hlen]
        · have hnw : itemWritesB n s i = false := by
            unfold itemWritesB
            simp [hw]
          rw [List.getElem?_set_ne hw, hnw, Bool.or_false]
          exact ih
      · rw [if_neg hg]
        have hnw : itemWritesB n s i = false := by
          unfold itemWritesB
          simp [Bool.eq_false_iff.mpr hg]
        rw [hnw, Bool.or_false]
        exact ih

/-! ## Claim theorems -/

/-- C10: `makeKernelFunction` returns a pointer obtained from `c_str()` of the
temporary `std::string` produced by `function.str()`; that temporary (and the
stream) are destroyed before the function returns, so no string object is
still alive at return and in particular the pointed-to object is dead: the
returned pointer never points to storage containing the generated kernel
source when the caller uses it. -/
theorem makeKernelFunction_returns_dangling (name typeName : String)
    (opOperator : Char) :
    (makeKernelFunction name typeName opOperator).2 = [] ∧
    (makeKernelFunction name typeName opOperator).1.owner ∉
      ((makeKernelFunction name typeName opOperator).2.map Prod.fst) := by
  constructor
  · rfl
  · simp [makeKernelFunction]

/-- C3 (code bug): when `clCreateContext` succeeds (handle 7) and
`clCreateCommandQueueWithProperties` then fails (status -6), the constructor
propagates the error while the context handle is still live — it is never
released, so the failed construction leaks one device resource instead of
zero. -/
theorem deviceCtor_queue_failure_leaks_context :
    deviceCtor (Except.ok 7) (Except.error (-6)) =
      (Except.error "Error: clCreateCommandQueueWithProperties (-6)\n", [7]) ∧
    (deviceCtor (Except.ok 7) (Except.error (-6))).2 ≠ [] := by
  constructor
  · rfl
  · simp [deviceCtor]

/-- C9 (code bug): `Device::Device() {}` initializes neither member, so with
junk storage values (context nonnull, queue null) the default-constructed
session is neither fully constructed nor fully torn down, violating the
all-or-nothing session invariant the destructor's and move-assignment's null
checks rely on. -/
theorem deviceDefault_violates_session_invariant :
    isFullyConstructed (deviceDefault (some 5) none) = false ∧
    isTornDown (deviceDefault (some 5) none) = false := by
  decide

/-- C4: whenever either input array does not permit read or the output array
does not permit write, every dispatch overload throws the permission error
with an empty platform-call trace: nothing is compiled or enqueued.  Since
`checkAccess` rejects a `READ_ONLY` array for a `WRITE` use, a dispatch whose
output array is read-only always fails this way (see the witness). -/
theorem deviceOp_permission_guard {α : Type} [Inhabited α]
    (kernelName typeName : String) (opOperator : Char) (op : α → α → α)
    (a b c : ClArray α)
    (h : checkAccess a AccessMethod.READ = false ∨
         checkAccess b AccessMethod.READ = false ∨
         checkAccess c AccessMethod.WRITE = false) :
    deviceOp kernelName typeName opOperator op a b c =
      (Except.error "invalid Array access permissions", []) := by
  unfold deviceOp
  rcases h with h | h | h <;> simp [h]

/-- Witness for C4 at a concrete input whose output array is `READ_ONLY`. -/
theorem deviceOp_permission_guard_witness :
    add_int32 c2A c2B c4C = (Except.error "invalid Array access permissions", []) :=
  deviceOp_permission_guard "add_int32" "int" '+' int32add c2A c2B c4C
    (Or.inr (Or.inr (by decide)))

/-- C5 counterexample: a dispatch whose arrays have mismatched sizes but whose
output array is also read-only raises the permission error, not the
shape-mismatch error — the access check runs first. -/
theorem shapeError_not_raised_when_access_fails :
    (add_int32 c2A c2B c5C).1 = Except.error "invalid Array access permissions" ∧
    c2A.size ≠ c5C.size ∧
    (add_int32 c2A c2B c5C).1 ≠ Except.error "all Arrays must be the same size" := by
  refine ⟨rfl, by decide, ?_⟩
  intro hcontra
  rw [show (add_int32 c2A c2B c5C).1 = Except.error "invalid Array access permissions"
    from rfl] at hcontra
  exact absurd (Except.error.inj hcontra) (by decide)

/-- C5 (amended): for every dispatch call that passes the access-mode check,
mismatched sizes raise the shape-mismatch error with an empty platform-call
trace: no program is compiled and no kernel is enqueued. -/
theorem deviceOp_shape_guard {α : Type} [Inhabited α]
    (kernelName typeName : String) (opOperator : Char) (op : α → α → α)
    (a b c : ClArray α)
    (ha : checkAccess a AccessMethod.READ = true)
    (hb : checkAccess b AccessMethod.READ = true)
    (hc : checkAccess c AccessMethod.WRITE = true)
    (hs : a.size ≠ c.size ∨ b.size ≠ c.size) :
    deviceOp kernelName typeName opOperator op a b c =
      (Except.error "all Arrays must be the same size", []) := by
  unfold deviceOp
  rcases hs with hs | hs <;> simp [ha, hb, hc, hs]

/-- Witness for C5 at a concrete access-valid, size-mismatched input. -/
theorem deviceOp_shape_guard_witness :
    add_int32 c2A c2B c5W = (Except.error "all Arrays must be the same size", []) :=
  deviceOp_shape_guard "add_int32" "int" '+' int32add c2A c2B c5W
    (by decide) (by decide) (by decide) (Or.inl (by decide))

/-- C6 counterexample: a `WRITE_ONLY` construction still copies the host data
into device memory, because `WRITE_ONLY` is defined as
`CL_MEM_WRITE_ONLY | CL_MEM_COPY_HOST_PTR`; the device memory is not left
uninitialized. -/
theorem arrayCtorVec_write_only_copies_host :
    (arrayCtorVec 4 AccessType.WRITE_ONLY [5, 6]).1.content = some [5, 6] ∧
    some [5, 6] ≠ (none : Option (List Nat)) := by
  constructor
  · rfl
  · simp

/-- C6 (amended): every buffer construction allocates
`element_count * sizeof(T)` bytes and stores the element count; all three
access modes OR in `CL_MEM_COPY_HOST_PTR`, so every mode — including
write-only — copies the host source data into device memory. -/
theorem arrayCtorVec_spec {α : Type} (sizeofT : Nat) (acc : AccessType)
    (dat : List α) :
    (arrayCtorVec sizeofT acc dat).1.sizeBytes = sizeofT * dat.length ∧
    (arrayCtorVec sizeofT acc dat).1.content = some dat ∧
    (arrayCtorVec sizeofT acc dat).2 = dat.length := by
  refine ⟨rfl, ?_, rfl⟩
  cases acc <;>
    simp [arrayCtorVec, clCreateBuffer, AccessType.val, CL_MEM_READ_WRITE,
      CL_MEM_READ_ONLY, CL_MEM_WRITE_ONLY, CL_MEM_COPY_HOST_PTR]

/-- C7 counterexample: the `std::vector` overload of `read` performs no size
check — with a destination of capacity 3 and a buffer of 2 elements it
succeeds (reallocating the destination) instead of failing with the
size-mismatch error. -/
theorem readVec_no_size_check :
    readVec c7Arr [0, 0, 0] = Except.ok [1, 2] ∧
    (3 : Nat) ≠ c7Arr.size := by
  exact ⟨rfl, by decide⟩

/-- C7 (amended): the fixed-size-array and raw-pointer overloads of `read`
fail with the size-mismatch error whenever the destination capacity differs
from the buffer's element count, but the vector overload never checks: it
discards the caller's vector, reallocates it to the buffer's element count
and succeeds. -/
theorem read_overloads_size_check {α : Type} (arr : ClArray α) (S : Nat)
    (v : List α) (h : S ≠ arr.size) :
    readArr arr S = Except.error "read target array size mismatch" ∧
    readPtr arr S = Except.error "read target array size mismatch" ∧
    readVec arr v = Except.ok arr.data := by
  refine ⟨?_, ?_, rfl⟩ <;> simp [readArr, readPtr, h]

/-- Witness for C7 at a concrete buffer and mismatched capacity. -/
theorem read_overloads_size_check_witness :
    readArr c7Arr 3 = Except.error "read target array size mismatch" ∧
    readPtr c7Arr 3 = Except.error "read target array size mismatch" ∧
    readVec c7Arr [0, 0, 0] = Except.ok c7Arr.data :=
  read_overloads_size_check c7Arr 3 [0, 0, 0] (by decide)

/-- C8 counterexample: a failed build (status -11, the OpenCL build-failure
code) raises a message built from the call name and the numeric status only;
the platform's diagnostic log is not part of the message (it is not even a
substring). -/
theorem buildError_lacks_build_log :
    clBuildProgramChecked (-11) buildLogEx =
      Except.error "Error: clBuildProgram (-11)\n" ∧
    ¬ (buildLogEx.data <:+: "Error: clBuildProgram (-11)\n".data) := by
  constructor
  · rfl
  · decide

/-- C8 (amended): a failed build raises an error whose message is built by
`checkErrMsg` from the API call name and the numeric status alone — the same
message whatever diagnostic log the platform reports; and since nothing is
ever stored (there is no cache), every dispatch call performs a fresh
`clBuildProgram`, so a call after a failure re-attempts compilation. -/
theorem buildError_message_and_retry (e : Int) (L1 L2 : String) (he : e ≠ 0)
    (a b c : ClArray Int)
    (ha : checkAccess a AccessMethod.READ = true)
    (hb : checkAccess b AccessMethod.READ = true)
    (hc : checkAccess c AccessMethod.WRITE = true)
    (hac : a.size = c.size) (hbc : b.size = c.size) :
    clBuildProgramChecked e L1 = Except.error (checkErrMsg "clBuildProgram" e) ∧
    clBuildProgramChecked e L1 = clBuildProgramChecked e L2 ∧
    countBuild (add_int32 a b c).2 = 1 := by
  have htr : (add_int32 a b c).2 =
      [ClEvent.createProgramWithSource (kernelFunctionSource "add_int32" "int" '+'),
       ClEvent.buildProgram, ClEvent.createKernel "add_int32",
       ClEvent.setKernelArg 0, ClEvent.setKernelArg 1,
       ClEvent.setKernelArg 2, ClEvent.setKernelArg 3,
       ClEvent.enqueueNDRangeKernel c.size,
       ClEvent.releaseKernel, ClEvent.releaseProgram] := by
    simp [add_int32, deviceOp, ha, hb, hc, hac, hbc]
  refine ⟨?_, ?_, ?_⟩
  · simp [clBuildProgramChecked, he]
  · simp [clBuildProgramChecked]
  · rw [htr]
    rfl

/-- Witness for C8 at a concrete failing status, two distinct logs and a
concrete valid dispatch. -/
theorem buildError_message_and_retry_witness :
    clBuildProgramChecked (-11) buildLogEx =
      Except.error (checkErrMsg "clBuildProgram" (-11)) ∧
    clBuildProgramChecked (-11) buildLogEx = clBuildProgramChecked (-11) "" ∧
    countBuild (add_int32 c2A c2B c2C).2 = 1 :=
  buildError_message_and_retry (-11) buildLogEx "" (by decide) c2A c2B c2C
    (by decide) (by decide) (by decide) (by decide) (by decide)

/-- C2 counterexample: two consecutive dispatches of the same
(operation, type) pair — `add` at `int` — perform two `clBuildProgram` calls,
not one: nothing is stored between calls, so the program is compiled again. -/
theorem repeated_dispatch_compiles_twice :
    countBuild ((add_int32 c2A c2B c2C).2 ++ (add_int32 c2A c2B c2C).2) = 2 ∧
    (2 : Nat) ≠ 1 := by
  constructor
  · rfl
  · decide

/-- C2 (amended): every dispatch that passes validation creates, builds, uses
and releases a fresh program and kernel — its platform-call trace is exactly
the ten calls of the overload body — and the `Device` stores nothing between
calls, so two dispatches of the same (operation, type) pair compile twice. -/
theorem dispatch_always_compiles {α : Type} [Inhabited α]
    (kernelName typeName : String) (opOperator : Char) (op : α → α → α)
    (a b c : ClArray α)
    (ha : checkAccess a AccessMethod.READ = true)
    (hb : checkAccess b AccessMethod.READ = true)
    (hc : checkAccess c AccessMethod.WRITE = true)
    (hac : a.size = c.size) (hbc : b.size = c.size) :
    (deviceOp kernelName typeName opOperator op a b c).2 =
      [ClEvent.createProgramWithSource (kernelFunctionSource kernelName typeName opOperator),
       ClEvent.buildProgram, ClEvent.createKernel kernelName,
       ClEvent.setKernelArg 0, ClEvent.setKernelArg 1,
       ClEvent.setKernelArg 2, ClEvent.setKernelArg 3,
       ClEvent.enqueueNDRangeKernel c.size,
       ClEvent.releaseKernel, ClEvent.releaseProgram] ∧
    countBuild ((deviceOp kernelName typeName opOperator op a b c).2 ++
      (deviceOp kernelName typeName opOperator op a b c).2) = 2 := by
  have htr : (deviceOp kernelName typeName opOperator op a b c).2 =
      [ClEvent.createProgramWithSource (kernelFunctionSource kernelName typeName opOperator),
       ClEvent.buildProgram, ClEvent.createKernel kernelName,
       ClEvent.setKernelArg 0, ClEvent.setKernelArg 1,
       ClEvent.setKernelArg 2, ClEvent.setKernelArg 3,
       ClEvent.enqueueNDRangeKernel c.size,
       ClEvent.releaseKernel, ClEvent.releaseProgram] := by
    simp [deviceOp, ha, hb, hc, hac, hbc]
  refine ⟨htr, ?_⟩
  rw [htr]
  rfl

/-- Witness for C2's amended statement at a concrete valid dispatch. -/
theorem dispatch_always_compiles_witness :
    (add_int32 c2A c2B c2C).2 =
      [ClEvent.createProgramWithSource (kernelFunctionSource "add_int32" "int" '+'),
       ClEvent.buildProgram, ClEvent.createKernel "add_int32",
       ClEvent.setKernelArg 0, ClEvent.setKernelArg 1,
       ClEvent.setKernelArg 2, ClEvent.setKernelArg 3,
       ClEvent.enqueueNDRangeKernel c2C.size,
       ClEvent.releaseKernel, ClEvent.releaseProgram] ∧
    countBuild ((add_int32 c2A c2B c2C).2 ++ (add_int32 c2A c2B c2C).2) = 2 :=
  dispatch_always_compiles "add_int32" "int" '+' int32add c2A c2B c2C
    (by decide) (by decide) (by decide) (by decide) (by decide)

/-- C1 (amended): for every element type and operation, a dispatch whose
arrays pass the access and size checks computes `C[i] = A[i] <op> B[i]` for
every index `i < N` with `i < 2^31`; because the kernel narrows the work-item
id to a 32-bit `int`, work items at ids `≥ 2^31` fail the guard after
wraparound, so output indices at or beyond `2^31` keep their prior content —
as do indices at or beyond the element count — and any work item whose id is
at or beyond the element count (an over-provisioned grid) performs no
write. -/
theorem deviceOp_elementwise {α : Type} [Inhabited α]
    (kernelName typeName : String) (opOperator : Char) (op : α → α → α)
    (a b c : ClArray α)
    (ha : checkAccess a AccessMethod.READ = true)
    (hb : checkAccess b AccessMethod.READ = true)
    (hc : checkAccess c AccessMethod.WRITE = true)
    (hac : a.size = c.size) (hbc : b.size = c.size) :
    (deviceOp kernelName typeName opOperator op a b c).1 =
      Except.ok (kernelRun op a.data b.data c.data c.size c.size) ∧
    (∀ i, i < c.size → i < 2147483648 →
      (kernelRun op a.data b.data c.data c.size c.size)[i]? =
        some (op (a.data.getD i default) (b.data.getD i default))) ∧
    (∀ i, c.size ≤ i →
      (kernelRun op a.data b.data c.data c.size c.size)[i]? = c.data[i]?) ∧
    (∀ i, 2147483648 ≤ i → i < c.size →
      (kernelRun op a.data b.data c.data c.size c.size)[i]? = c.data[i]?) ∧
    (∀ g, c.size ≤ g → g < 2147483648 → ∀ cc : List α,
      workItem op a.data b.data c.size cc g = cc) := by
  refine ⟨?_, ?_, ?_, ?_, ?_⟩
  · simp [deviceOp, ha, hb, hc, hac, hbc]
  · intro i hiN hi31
    have hi : i < c.data.length := hiN
    rw [kernelRun_getElem? op a.data b.data c.data c.size hi c.size]
    have ht : touchedB c.size c.size i = true :=
      touchedB_eq_true i hiN (itemWritesB_self hi31 hiN)
    simp [ht]
  · intro i hle
    have h1 : (kernelRun op a.data b.data c.data c.size c.size)[i]? = none := by
      apply List.getElem?_eq_none
      rw [kernelRun_length]
      exact hle
    have h2 : c.data[i]? = none := List.getElem?_eq_none hle
    rw [h1, h2]
  · intro i h31 hiN
    have hi : i < c.data.length := hiN
    rw [kernelRun_getElem? op a.data b.data c.data c.size hi c.size]
    have ht : touchedB c.size c.size i = false :=
      touchedB_eq_false (fun g _ => itemWritesB_eq_false_of_ge h31 g c.size)
    simp [ht]
  · intro g hgs hg31 cc
    unfold workItem
    rw [gidGuard_of_lt hg31]
    simp [Nat.not_lt.mpr hgs]

/-- Witness for C1's amended statement at a concrete valid dispatch. -/
theorem deviceOp_elementwise_witness :
    (add_int32 c2A c2B c2C).1 =
      Except.ok (kernelRun int32add c2A.data c2B.data c2C.data c2C.size c2C.size) ∧
    (∀ i, i < c2C.size → i < 2147483648 →
      (kernelRun int32add c2A.data c2B.data c2C.data c2C.size c2C.size)[i]? =
        some (int32add (c2A.data.getD i default) (c2B.data.getD i default))) ∧
    (∀ i, c2C.size ≤ i →
      (kernelRun int32add c2A.data c2B.data c2C.data c2C.size c2C.size)[i]? =
        c2C.data[i]?) ∧
    (∀ i, 2147483648 ≤ i → i < c2C.size →
      (kernelRun int32add c2A.data c2B.data c2C.data c2C.size c2C.size)[i]? =
        c2C.data[i]?) ∧
    (∀ g, c2C.size ≤ g → g < 2147483648 → ∀ cc : List Int,
      workItem int32add c2A.data c2B.data c2C.size cc g = cc) :=
  deviceOp_elementwise "add_int32" "int" '+' int32add c2A c2B c2C
    (by decide) (by decide) (by decide) (by decide) (by decide)

/-- C1 counterexample: dispatching `add` at `unsigned long long int` on arrays
of `N = 2^31 + 1` ones (output initialized to zeros) leaves the output at
index `2^31` equal to 0, not to `A[2^31] + B[2^31] = 2`: the work item with
global id `2^31` narrows to the `int` value `-2^31`, whose `ulong` promotion
fails the `gid < s` guard, so the element is never computed — refuting the
claim that `C[i] = A[i] <op> B[i]` holds for every `i < N`. -/
theorem large_dispatch_misses_index_2pow31 :
    (add_uint64 c1A c1B c1C).1 =
      Except.ok (kernelRun uint64add c1A.data c1B.data c1C.data c1C.size c1C.size) ∧
    c1Out[2147483648]? = some 0 ∧
    uint64add (c1A.data.getD 2147483648 0) (c1B.data.getD 2147483648 0) = 2 ∧
    2147483648 < c1N ∧
    c1Out[2147483648]? ≠
      some (uint64add (c1A.data.getD 2147483648 0) (c1B.data.getD 2147483648 0)) := by
  have hlenC : c1C.data.length = c1N := by simp [c1C]
  have hA : c1A.data = List.replicate c1N 1 := rfl
  have hB : c1B.data = List.replicate c1N 1 := rfl
  have hC : c1C.data = List.replicate c1N 0 := rfl
  have haccA : checkAccess c1A AccessMethod.READ = true := rfl
  have haccB : checkAccess c1B AccessMethod.READ = true := rfl
  have haccC : checkAccess c1C AccessMethod.WRITE = true := rfl
  have hsA : c1A.size = c1C.size := by simp [c1A, c1C, ClArray.size]
  have hsB : c1B.size = c1C.size := by simp [c1B, c1C, ClArray.size]
  have hres : (add_uint64 c1A c1B c1C).1 =
      Except.ok (kernelRun uint64add c1A.data c1B.data c1C.data c1C.size c1C.size) := by
    simp [add_uint64, deviceOp, haccA, haccB, haccC, hsA, hsB]
  have hcout : c1Out =
      kernelRun uint64add c1A.data c1B.data c1C.data c1C.size c1C.size := by
    unfold c1Out
    rw [hres, toOption_getD_ok]
  have hi : (2147483648 : Nat) < c1C.data.length := by
    rw [hlenC]
    decide
  have hout : c1Out[2147483648]? = some 0 := by
    rw [hcout,
      kernelRun_getElem? uint64add c1A.data c1B.data c1C.data c1C.size hi c1C.size]
    have ht : touchedB c1C.size c1C.size 2147483648 = false :=
      touchedB_eq_false (fun g _ => itemWritesB_eq_false_of_ge (le_refl _) g c1C.size)
    rw [ht]
    simp [hC, getElem?_replicate_of_lt (show (2147483648 : Nat) < c1N by decide)]
  have hab : uint64add (c1A.data.getD 2147483648 0) (c1B.data.getD 2147483648 0) = 2 := by
    rw [hA, hB, getD_replicate_of_lt (show (2147483648 : Nat) < c1N by decide)]
    decide
  refine ⟨hres, hout, hab, by decide, ?_⟩
  rw [hout, hab]
  simp

end ezcl
